import Mathlib

/-!
# Verification of the banana-slides generation-task subsystem

Shallow embedding of the Flask backend of `banana-slides`:
the project controller's batch-submission endpoints
(`generate_descriptions`, `generate_images`, `get_task_status` in
`src/backend/controllers/project_controller.py`), the outline helpers of
`AIService` (`src/backend/services/ai_service.py`), the MinerU static-file
handler (`src/backend/controllers/file_controller.py`), and — modelled from
the spec where the repository's `services/task_manager.py` is not present
under `src/` — the Bounded Worker Pool / Task Orchestrator / Submission
Gateway.

Python dicts of fixed shape become structures; `None`-able fields become
`Option`; Python truthiness on such fields is made explicit; functions that
may raise return an explicit raised/ok sum.
-/

set_option maxRecDepth 100000

namespace BananaSlides

/-! ## Data model

`models.py` is not under `src/`; the record shapes below are taken from the
spec's §3 Task Record description and from the fields the controllers under
`src/` read and write (`Page.order_index`, `Page.part`,
`Page.get_outline_content`, `Task.status`, `Task.set_progress`). -/

/-- The outline content stored on a page by `Page.set_outline_content`:
a dict `{'title': ..., 'points': [...]}` (see `project_controller.py`
lines 285–288). -/
structure PageOutline where
  title : String
  points : List String
deriving DecidableEq, Repr, Inhabited

/-- A page row as the generation endpoints read it: its position, its
optional `part` label (a nullable string column) and its stored outline
content (`None` when never set). -/
structure Page where
  orderIndex : Nat
  part : Option String
  outlineContent : Option PageOutline
deriving DecidableEq, Repr

/-- Task lifecycle states (spec §3). -/
inductive TaskStatus where
  | PENDING
  | RUNNING
  | COMPLETED
  | COMPLETED_WITH_ERRORS
  | FAILED
deriving DecidableEq, Repr

/-- The progress dict `{total, completed, failed}` stored by
`Task.set_progress`. -/
structure TProgress where
  total : Nat
  completed : Nat
  failed : Nat
deriving DecidableEq, Repr

/-- A Task Record row. -/
structure Task where
  id : Nat
  projectId : Nat
  taskType : String
  status : TaskStatus
  progress : TProgress
deriving DecidableEq, Repr

/-- A project row as the generation endpoints read it. -/
structure Project where
  id : Nat
  status : String
deriving DecidableEq, Repr

/-- Python truthiness of a nullable string: `None` and `""` are falsy,
every other string is truthy. -/
def optTruthy : Option String → Bool
  | none => false
  | some s => !s.isEmpty

/-! ## Outline structure and `AIService.flatten_outline`

An outline is a list of items; each item is either a plain page dict
`{'title', 'points'}` or a part dict `{'part': label, 'pages': [...]}`
(`ai_service.py`, `flatten_outline`, lines 172–188). -/

/-- One item of an outline list. -/
inductive OutlineItem where
  | direct (p : PageOutline)
  | part (label : String) (pages : List PageOutline)
deriving DecidableEq, Repr

/-- A flattened page as produced by `flatten_outline`: the page dict's
title and points, plus the `part` key (present only for pages expanded out
of a part item). -/
structure FlatPage where
  title : String
  points : List String
  part : Option String
deriving DecidableEq, Repr

/-- `AIService.flatten_outline` on one item: a part item expands to its
pages, each copied with `page_with_part["part"] = item["part"]`; a direct
page is appended as-is (it carries no `part` key). -/
def flattenItem : OutlineItem → List FlatPage
  | .direct p => [⟨p.title, p.points, none⟩]
  | .part label pgs => pgs.map (fun p => ⟨p.title, p.points, some label⟩)

/-- `AIService.flatten_outline` (`ai_service.py` lines 172–188). -/
def flatten_outline (outline : List OutlineItem) : List FlatPage :=
  outline.flatMap flattenItem

/-! ## The part-grouping loop of `generate_descriptions` / `generate_images`

`project_controller.py` lines 452–497 and (textually identical) lines
585–630: rebuild the outline from the ordered page rows, grouping
consecutive pages that share a truthy `part` label into one part item. -/

/-- The loop body, with the Python loop state made explicit:
`outline` is the accumulator list, `cur` is `current_part`
(`None` initially), `curPages` is `current_part_pages`. Pages whose
outline content is `None` are skipped (`continue`). After the loop the
last open part, if any, is flushed. -/
def reconstructLoop : List Page → List OutlineItem → Option String → List PageOutline → List OutlineItem
  | [], outline, cur, curPages =>
    if optTruthy cur then outline ++ [.part (cur.getD "") curPages] else outline
  | pg :: rest, outline, cur, curPages =>
    match pg.outlineContent with
    | none => reconstructLoop rest outline cur curPages
    | some pd =>
      if optTruthy pg.part then
        if optTruthy cur ∧ cur ≠ pg.part then
          reconstructLoop rest (outline ++ [.part (cur.getD "") curPages]) pg.part [pd]
        else
          reconstructLoop rest outline pg.part (curPages ++ [pd])
      else
        if optTruthy cur then
          reconstructLoop rest (outline ++ [.part (cur.getD "") curPages, .direct pd]) none []
        else
          reconstructLoop rest (outline ++ [.direct pd]) cur curPages

/-- The whole reconstruction: loop over the pages ordered by
`order_index`, starting from an empty outline, `current_part = None`,
`current_part_pages = []`. -/
def reconstructOutline (pages : List Page) : List OutlineItem :=
  reconstructLoop pages [] none []

/-- The effective part label of a page under Python truthiness: `None` and
`""` count as "no part". -/
def effPart (pg : Page) : Option String :=
  if optTruthy pg.part then pg.part else none

/-- What one page row contributes to the flattened round-trip: nothing if
its outline content is `None`, otherwise its title, points and effective
part label. -/
def pageFlat (pg : Page) : List FlatPage :=
  match pg.outlineContent with
  | none => []
  | some pd => [⟨pd.title, pd.points, effPart pg⟩]

/-! ## The batch-submission endpoints

`project_controller.py`: `generate_descriptions` (lines 427–556) and
`generate_images` (lines 559–693). Only the state the claims speak about
is modelled; the HTTP plumbing (`utils` response helpers, not under
`src/`) is reduced to a response datatype with the same decision
structure: `not_found('Project')`, `bad_request(msg)` (a 400 error), and
the 202 `success_response` carrying the new task id. -/

/-- The response of a generation endpoint. -/
inductive Response where
  | notFound (what : String)
  | badRequest (msg : String)
  | accepted (taskId : Nat) (status : String) (totalPages : Nat)
deriving DecidableEq, Repr

/-- The externally visible, ordered effects of one endpoint call:
committing the new Task Record, handing the closure to
`task_manager.submit_task` (with the `max_workers` argument the
controller computed), and the project-status update committed after
submission. -/
inductive Effect where
  | taskCreated (t : Task)
  | submitted (taskId : Nat) (maxWorkers : Int)
  | projectStatusSet (s : String)
deriving DecidableEq, Repr

/-- The statuses `generate_descriptions` accepts
(`project_controller.py` line 443). -/
def descStatusAllowed (s : String) : Bool :=
  s == "OUTLINE_GENERATED" || s == "DRAFT" || s == "DESCRIPTIONS_GENERATED"

/-- `generate_descriptions` (`project_controller.py` lines 427–556).
Inputs: the looked-up project (`None` when `Project.query.get` misses),
its pages ordered by `order_index`, the request's optional `max_workers`,
the configured `MAX_DESCRIPTION_WORKERS` default, and the id the new Task
row receives. Returns the response and the ordered effect trace. -/
def generate_descriptions (project : Option Project) (pages : List Page)
    (reqMaxWorkers : Option Int) (cfgMaxDescriptionWorkers : Int)
    (newTaskId : Nat) : Response × List Effect :=
  match project with
  | none => (.notFound "Project", [])
  | some proj =>
    if !descStatusAllowed proj.status then
      (.badRequest "Project must have outline generated first", [])
    else if pages.isEmpty then
      (.badRequest "No pages found for project", [])
    else
      let _outline := reconstructOutline pages
      let maxWorkers := reqMaxWorkers.getD cfgMaxDescriptionWorkers
      let task : Task :=
        ⟨newTaskId, proj.id, "GENERATE_DESCRIPTIONS", .PENDING,
         ⟨pages.length, 0, 0⟩⟩
      (.accepted newTaskId "GENERATING_DESCRIPTIONS" pages.length,
       [.taskCreated task, .submitted newTaskId maxWorkers,
        .projectStatusSet "GENERATING_DESCRIPTIONS"])

/-- `generate_images` (`project_controller.py` lines 559–693). The
project-status guard is commented out in the source (lines 576–577), so
no status check appears here; the pool worker default is
`MAX_IMAGE_WORKERS`. -/
def generate_images (project : Option Project) (pages : List Page)
    (reqMaxWorkers : Option Int) (cfgMaxImageWorkers : Int)
    (newTaskId : Nat) : Response × List Effect :=
  match project with
  | none => (.notFound "Project", [])
  | some proj =>
    if pages.isEmpty then
      (.badRequest "No pages found for project", [])
    else
      let _outline := reconstructOutline pages
      let maxWorkers := reqMaxWorkers.getD cfgMaxImageWorkers
      let task : Task :=
        ⟨newTaskId, proj.id, "GENERATE_IMAGES", .PENDING,
         ⟨pages.length, 0, 0⟩⟩
      (.accepted newTaskId "GENERATING_IMAGES" pages.length,
       [.taskCreated task, .submitted newTaskId maxWorkers,
        .projectStatusSet "GENERATING_IMAGES"])

/-! ## The polling endpoint

`get_task_status` (`project_controller.py` lines 696–710). `Task.to_dict`
(in `models.py`, not under `src/`) is modelled from the spec's read
contract (§6): the stored `status`/`progress` are returned verbatim. -/

/-- A poll response: the task's stored status and progress, or a 404. -/
inductive PollResponse where
  | notFound (what : String)
  | taskInfo (status : TaskStatus) (progress : TProgress)
deriving DecidableEq, Repr

/-- `get_task_status`: look the task up by id in the store; 404 when it
is missing or belongs to another project; otherwise return its dict. The
store is returned alongside to make the absence of mutation explicit. -/
def get_task_status (tasks : List Task) (projectId : Nat) (taskId : Nat) :
    PollResponse × List Task :=
  match tasks.find? (fun t => t.id == taskId) with
  | none => (.notFound "Task", tasks)
  | some t =>
    if t.projectId != projectId then (.notFound "Task", tasks)
    else (.taskInfo t.status t.progress, tasks)

/-! ## `AIService.generate_image`

`ai_service.py` lines 280–392. The function body may fault in three ways:
the reference image path does not exist (`FileNotFoundError`), the
provider call raises, or the response contains no extractable image
(`ValueError`). The enclosing `try/except Exception` catches every fault
and **re-raises** it as `Exception("Error generating image: {type}: {msg}")`
(lines 389–392) — faults are classified but still propagate as an
exception, matching the docstring's "Raises: Exception with detailed
error message if generation fails". -/

/-- An opaque PIL image value. -/
structure PILImage where
  id : Nat
deriving DecidableEq, Repr

/-- One part of the provider response: a text part, or a non-text part
from which `part.as_image()` may or may not extract an image (extraction
failures are caught inside the loop and skipped). -/
inductive ApiPart where
  | text (s : String)
  | media (extracted : Option PILImage)
deriving DecidableEq, Repr

/-- The environment `generate_image` runs against: the optional main
reference image path, whether that path exists on disk, and the provider
call's outcome — either a raised exception (carried as
`"{type}: {msg}"`) or a parts list. Additional reference images only add
entries to `contents` (download/lookup failures are skipped with a
warning, lines 321–348) and are not tracked here. -/
structure ImgEnv where
  refImagePath : Option String
  refImageExists : Bool
  apiResult : Except String (List ApiPart)
deriving Repr

/-- The outcome of calling a Python function: a returned value, or a
raised exception carrying its message. -/
inductive PyResult (α : Type) where
  | ok (a : α)
  | raised (msg : String)
deriving DecidableEq, Repr

/-- The first image extracted while scanning `response.parts` in order
(text parts logged and skipped; failed extractions skipped). -/
def firstImage : List ApiPart → Option PILImage
  | [] => none
  | .text _ :: rest => firstImage rest
  | .media none :: rest => firstImage rest
  | .media (some img) :: _ => some img

/-- The `try`-block body of `generate_image`: each internal fault is an
`Except.error` carrying `"{type}: {msg}"` as the outer handler formats
it. -/
def generate_image_body (env : ImgEnv) : Except String PILImage :=
  match env.refImagePath with
  | some p =>
    if !env.refImageExists then
      .error ("FileNotFoundError: Reference image not found: " ++ p)
    else generate_image_call env
  | none => generate_image_call env
where
  /-- The provider call and response scan (lines 350–387). -/
  generate_image_call (env : ImgEnv) : Except String PILImage :=
    match env.apiResult with
    | .error e => .error e
    | .ok parts =>
      match firstImage parts with
      | some img => .ok img
      | none =>
        .error ("ValueError: No image found in API response. " ++
          (if parts.isEmpty then "Response had no parts."
           else "Response had parts but none contained valid images."))

/-- `AIService.generate_image` with its outer `try/except` (lines
300–392): any fault is caught and re-raised as a single classified
`Exception` whose message wraps the original one. -/
def generate_image (env : ImgEnv) : PyResult PILImage :=
  match generate_image_body env with
  | .ok img => .ok img
  | .error e => .raised ("Error generating image: " ++ e)

/-! ## The MinerU static-file handler

`file_controller.py` lines 116–141, `serve_mineru_file`. Paths are
modelled lexically, as `os.path.abspath` treats them: an absolute path is
its list of components; normalization resolves `.` and `..`;
`os.path.abspath(...).startswith(...)` compares the *strings* obtained by
joining with `/`. -/

/-- Auxiliary character-level splitter: cut a character list at every
`/`. -/
def splitSlashAux : List Char → List Char → List String
  | [], acc => [String.mk acc.reverse]
  | c :: rest, acc =>
    if c = '/' then String.mk acc.reverse :: splitSlashAux rest []
    else splitSlashAux rest (c :: acc)

/-- Split a relative URL path into components (empty components, as from
`a//b`, collapse — `os.path.abspath` drops them). -/
def splitPath (s : String) : List String :=
  (splitSlashAux s.data []).filter (fun c => c ≠ "")

/-- Character-level prefix test. -/
def charsStartsWith : List Char → List Char → Bool
  | _, [] => true
  | [], _ :: _ => false
  | c :: cs, d :: ds => c == d && charsStartsWith cs ds

/-- Python's `str.startswith`: the second string is a character-wise
prefix of the first. -/
def strStartsWith (s pre : String) : Bool :=
  charsStartsWith s.data pre.data

/-- Lexical normalization of an absolute path's components, as
`os.path.abspath` performs it: `.` is dropped, `..` removes the previous
component (at the root it is dropped). -/
def normalizePath (comps : List String) : List String :=
  comps.foldl
    (fun acc c =>
      if c = "." then acc
      else if c = ".." then acc.dropLast
      else acc ++ [c])
    []

/-- Join absolute-path components into the string `os.path.abspath`
returns. -/
def joinAbs (comps : List String) : String :=
  "/" ++ String.intercalate "/" comps

/-- The extract's root directory:
`UPLOAD_FOLDER/mineru_files/{extract_id}` (line 126). -/
def mineruRoot (uploadFolder : List String) (extractId : String) : List String :=
  uploadFolder ++ ["mineru_files", extractId]

/-- The handler's response: 403 `INVALID_PATH`, a served file (identified
by its resolved absolute path), or 404. -/
inductive MineruResponse where
  | invalidPath
  | file (absPath : String)
  | notFoundFile
deriving DecidableEq, Repr

/-- `serve_mineru_file`: build `root_dir` and `full_path = root / filepath`,
reject with 403 when `os.path.abspath(full_path)` does not *string*-start
with `os.path.abspath(root_dir)` (line 130), then serve whatever
`find_file_with_prefix` finds (that helper lives in `utils/path_utils.py`,
not under `src/`; whether it finds a file is the `fileFound` input — when
it does, the file at the resolved path is served). -/
def serve_mineru_file (uploadFolder : List String) (extractId : String)
    (filepath : String) (fileFound : Bool) : MineruResponse :=
  let rootAbs := joinAbs (normalizePath (mineruRoot uploadFolder extractId))
  let fullAbs := joinAbs
    (normalizePath (mineruRoot uploadFolder extractId ++ splitPath filepath))
  if !strStartsWith fullAbs rootAbs then .invalidPath
  else if fileFound then .file fullAbs
  else .notFoundFile

/-- The property the claim asserts of every served file: the resolved
path lies under the extract's root *directory*, i.e. the root's
components are a component-wise prefix of the resolved path's
components. -/
def underRootDir (uploadFolder : List String) (extractId : String)
    (resolved : List String) : Bool :=
  resolved.take (mineruRoot uploadFolder extractId).length
    == mineruRoot uploadFolder extractId

/-! ## Bounded Worker Pool / Task Orchestrator / Submission Gateway

`services/task_manager.py` (the worker pool, the background task bodies
and `submit_task`) is not present under `src/`; the definitions below are
modelled from the spec (§4.2–§4.4). -/

/-- The classified outcome of one WorkItem's executor (spec §4.1):
exactly one of success or failure. -/
inductive ExecResult where
  | success
  | failure
deriving DecidableEq, Repr

/-- Modelled from the spec: the orchestrator's on-result callback (§4.3)
increments `progress.completed` on a success and `progress.failed` on a
failure; `total` is never touched. -/
def onResult (p : TProgress) (r : ExecResult) : TProgress :=
  match r with
  | .success => { p with completed := p.completed + 1 }
  | .failure => { p with failed := p.failed + 1 }

/-- Modelled from the spec: the terminal-status rule (§4.3/§8) computed
at pool exhaustion. `failed == 0` gives `COMPLETED`; `0 < failed < total`
gives `COMPLETED_WITH_ERRORS`; `failed == total` gives a single fixed
policy choice (`FAILED` or `COMPLETED_WITH_ERRORS`), passed in as
`policyAllFailed` since the spec leaves the choice to the implementer
(§9 open question). -/
def terminalStatus (policyAllFailed : TaskStatus) (p : TProgress) : TaskStatus :=
  if p.failed = 0 then .COMPLETED
  else if p.failed < p.total then .COMPLETED_WITH_ERRORS
  else policyAllFailed

/-- Modelled from the spec: one full orchestrator run over a batch
(§4.3). The Task Record transitions `PENDING → RUNNING`, the pool drives
every item and fires the on-result callback once per completion event,
and at exhaustion the terminal status is computed from the final
counters. `events` is the batch's completion order — any permutation of
the items' results, since the pool guarantees nothing about completion
order (§4.2); the concurrency limit `K` bounds in-flight items but not
the set of callbacks fired. -/
def runOrchestrator (policyAllFailed : TaskStatus) (task : Task)
    (events : List ExecResult) : Task :=
  let p := events.foldl onResult task.progress
  { task with progress := p, status := terminalStatus policyAllFailed p }

/-- Modelled from the spec: the Submission Gateway and background
execution context (§4.4). The system state is the Task Record store plus
the queue of submitted-but-not-yet-run batch closures (a closure is
identified by its task id and the `max_workers` it captured);
`submit_task` only appends to the queue and returns — it never runs the
closure on the caller's context. -/
structure SysState where
  tasks : List Task
  queue : List (Nat × Int)
deriving DecidableEq, Repr

/-- Apply one controller effect to the system state: a created task is
committed to the store; a submission is enqueued by the gateway
(modelled from the spec: `submit_task` is fire-and-forget, §4.4); the
project-status update does not touch this state. -/
def applyEffect (st : SysState) : Effect → SysState
  | .taskCreated t => { st with tasks := st.tasks ++ [t] }
  | .submitted tid mw => { st with queue := st.queue ++ [(tid, mw)] }
  | .projectStatusSet _ => st

/-- One request to the `generate_descriptions` endpoint, as the request
layer sees it: the controller runs to completion, its effects are applied
(the batch closure only ever *enqueued*), and the response is returned to
the caller. -/
def handleGenerateDescriptions (st : SysState) (project : Option Project)
    (pages : List Page) (reqMaxWorkers : Option Int)
    (cfgMaxDescriptionWorkers : Int) (newTaskId : Nat) :
    SysState × Response :=
  let (r, effs) := generate_descriptions project pages reqMaxWorkers
    cfgMaxDescriptionWorkers newTaskId
  (effs.foldl applyEffect st, r)

/-! ## Helper lemmas -/

/-- `flatten_outline` distributes over append. -/
theorem flatten_outline_append (a b : List OutlineItem) :
    flatten_outline (a ++ b) = flatten_outline a ++ flatten_outline b := by
  simp [flatten_outline]

/-- A truthy nullable string is `some` of its `getD ""`. -/
theorem optTruthy_getD (o : Option String) (h : optTruthy o = true) :
    some (o.getD "") = o := by
  cases o with
  | none => simp [optTruthy] at h
  | some s => rfl

/-- What a part-grouping loop state still owes to the flattened output:
the pages of the currently open part, tagged with its label; nothing when
no part is open. -/
def pendingFlat (cur : Option String) (curPages : List PageOutline) : List FlatPage :=
  if optTruthy cur then
    curPages.map (fun p => ⟨p.title, p.points, some (cur.getD "")⟩)
  else []

/-- Invariant lemma for the part-grouping loop: from any loop state in
which an un-open part owns no pending pages, flattening the loop's result
yields the flattened accumulator, then the pending pages, then each
remaining page's own contribution — in input order, every page tagged
with its own effective part label. -/
theorem reconstructLoop_flatten (pages : List Page) :
    ∀ (outline : List OutlineItem) (cur : Option String)
      (curPages : List PageOutline),
      (optTruthy cur = false → curPages = []) →
      flatten_outline (reconstructLoop pages outline cur curPages)
        = flatten_outline outline ++ pendingFlat cur curPages
          ++ pages.flatMap pageFlat := by
  induction pages with
  | nil =>
    intro outline cur curPages hinv
    by_cases h : optTruthy cur = true
    · simp [reconstructLoop, h, pendingFlat, flatten_outline_append,
        flatten_outline, flattenItem]
    · have h' : optTruthy cur = false := by
        simpa using h
      simp [reconstructLoop, h', pendingFlat, hinv h']
  | cons pg rest ih =>
    intro outline cur curPages hinv
    rcases hoc : pg.outlineContent with _ | pd
    · simp only [reconstructLoop, hoc]
      rw [ih outline cur curPages hinv]
      simp [pageFlat, hoc]
    · simp only [reconstructLoop, hoc]
      by_cases hp : optTruthy pg.part = true
      · obtain ⟨s, hs⟩ : ∃ s, pg.part = some s := by
          cases hps : pg.part with
          | none => rw [hps] at hp; simp [optTruthy] at hp
          | some s => exact ⟨s, rfl⟩
        by_cases hflush : optTruthy cur = true ∧ cur ≠ pg.part
        · rw [if_pos hp, if_pos hflush,
            ih _ _ _ (fun hf => by rw [hp] at hf; cases hf)]
          simp [flatten_outline_append, flatten_outline, flattenItem,
            pendingFlat, hflush.1, hp, pageFlat, hoc, effPart,
            optTruthy_getD pg.part hp]
        · rw [if_pos hp, if_neg hflush,
            ih _ _ _ (fun hf => by rw [hp] at hf; cases hf)]
          by_cases hc : optTruthy cur = true
          · have hcur : cur = pg.part := by
              by_contra hne
              exact hflush ⟨hc, hne⟩
            subst hcur
            simp [pendingFlat, hc, hp, pageFlat, hoc, effPart,
              optTruthy_getD pg.part hc]
          · have hc' : optTruthy cur = false := by simpa using hc
            rw [hinv hc']
            simp [pendingFlat, hc', hp, pageFlat, hoc, effPart,
              optTruthy_getD pg.part hp]
      · have hp' : optTruthy pg.part = false := by simpa using hp
        rw [if_neg (by simp [hp'])]
        by_cases hc : optTruthy cur = true
        · rw [if_pos hc, ih _ _ _ (fun _ => rfl)]
          simp [flatten_outline_append, flatten_outline, flattenItem,
            pendingFlat, hc, hp', pageFlat, hoc, effPart,
            optTruthy_getD cur hc]
        · have hc' : optTruthy cur = false := by simpa using hc
          rw [if_neg hc, ih _ _ _ hinv]
          rw [hinv hc']
          simp [flatten_outline_append, flatten_outline, flattenItem,
            pendingFlat, hc', hp', pageFlat, hoc, effPart]

/-- The round-trip through reconstruction and flattening, stated over the
whole page list. -/
theorem reconstructOutline_flatten (pages : List Page) :
    flatten_outline (reconstructOutline pages) = pages.flatMap pageFlat := by
  rw [reconstructOutline, reconstructLoop_flatten pages [] none [] (fun _ => rfl)]
  simp [flatten_outline, pendingFlat, optTruthy]

/-- When every page has outline content, the round-trip contribution of
the page list is exactly one flat page per input page, in order. -/
theorem flatMap_pageFlat_of_content (pages : List Page)
    (h : ∀ pg ∈ pages, pg.outlineContent.isSome = true) :
    pages.flatMap pageFlat
      = pages.map (fun pg =>
          ⟨(pg.outlineContent.getD default).title,
           (pg.outlineContent.getD default).points, effPart pg⟩) := by
  induction pages with
  | nil => rfl
  | cons pg rest ih =>
    have h1 := h pg (by simp)
    rcases hoc : pg.outlineContent with _ | pd
    · rw [hoc] at h1; simp at h1
    · simp only [List.flatMap_cons, List.map_cons, pageFlat, hoc,
        Option.getD_some]
      rw [ih (fun q hq => h q (List.mem_cons_of_mem _ hq))]
      rfl

/-- Collapse runs of equal consecutive values. -/
def dedupRuns : List (Option String) → List (Option String)
  | [] => []
  | [x] => [x]
  | x :: y :: rest =>
    if x = y then dedupRuns (y :: rest) else x :: dedupRuns (y :: rest)

/-- Pages sharing a (truthy) part label are contiguous: after collapsing
runs of equal consecutive effective labels, no label appears twice. -/
def partsContiguous (pages : List Page) : Prop :=
  ((dedupRuns (pages.map effPart)).filterMap id).Nodup

instance (pages : List Page) : Decidable (partsContiguous pages) := by
  unfold partsContiguous
  exact List.nodupDecidable _

/-- The spec's terminal Task Record statuses. -/
def isTerminalStatus : TaskStatus → Bool
  | .COMPLETED => true
  | .COMPLETED_WITH_ERRORS => true
  | .FAILED => true
  | .PENDING => false
  | .RUNNING => false

/-- Folding the on-result callback over a completion trace adds the
trace's success count to `completed` and its failure count to `failed`,
and leaves `total` unchanged. -/
theorem foldl_onResult_spec (events : List ExecResult) (p : TProgress) :
    events.foldl onResult p
      = ⟨p.total, p.completed + events.count .success,
         p.failed + events.count .failure⟩ := by
  induction events generalizing p with
  | nil => simp
  | cons e rest ih =>
    cases e <;>
      · rw [List.foldl_cons, ih]
        simp [onResult, List.count_cons]
        omega

/-- Every completion event is a success or a failure, so the two counts
sum to the trace length. -/
theorem count_success_add_count_failure (l : List ExecResult) :
    l.count .success + l.count .failure = l.length := by
  induction l with
  | nil => rfl
  | cons e rest ih =>
    cases e <;> simp [List.count_cons] <;> omega

/-! ## Claim theorems -/

/-- **C9**: for every page list ordered by `order_index` in which every
page has outline content and pages sharing a part label are contiguous,
the outline rebuilt by the part-grouping loop of `generate_descriptions`
(and, identically, `generate_images`), passed through
`AIService.flatten_outline`, yields the original per-page sequence: the
same titles and points in the same order, each page carrying its original
(effective) part label. -/
theorem c9_reconstruct_flatten_roundtrip (pages : List Page)
    (hsorted : List.Sorted (fun a b => a.orderIndex ≤ b.orderIndex) pages)
    (hcontent : ∀ pg ∈ pages, pg.outlineContent.isSome = true)
    (hcontig : partsContiguous pages) :
    flatten_outline (reconstructOutline pages)
      = pages.map (fun pg =>
          ⟨(pg.outlineContent.getD default).title,
           (pg.outlineContent.getD default).points, effPart pg⟩) := by
  rw [reconstructOutline_flatten pages, flatMap_pageFlat_of_content pages hcontent]

/-- Concrete instance for `c9_reconstruct_flatten_roundtrip`: a five-page
project with two parts, a part-less page and an empty-string part
label. -/
theorem c9_reconstruct_flatten_roundtrip_witness :
    List.Sorted (fun a b => a.orderIndex ≤ b.orderIndex)
      ([⟨0, some "Intro", some ⟨"t1", ["a"]⟩⟩,
        ⟨1, some "Intro", some ⟨"t2", ["b", "c"]⟩⟩,
        ⟨2, none, some ⟨"t3", []⟩⟩,
        ⟨3, some "", some ⟨"t4", ["d"]⟩⟩,
        ⟨4, some "End", some ⟨"t5", []⟩⟩] : List Page) ∧
    flatten_outline (reconstructOutline
      [⟨0, some "Intro", some ⟨"t1", ["a"]⟩⟩,
       ⟨1, some "Intro", some ⟨"t2", ["b", "c"]⟩⟩,
       ⟨2, none, some ⟨"t3", []⟩⟩,
       ⟨3, some "", some ⟨"t4", ["d"]⟩⟩,
       ⟨4, some "End", some ⟨"t5", []⟩⟩])
      = List.map (fun pg =>
          ⟨(pg.outlineContent.getD default).title,
           (pg.outlineContent.getD default).points, effPart pg⟩)
          [⟨0, some "Intro", some ⟨"t1", ["a"]⟩⟩,
           ⟨1, some "Intro", some ⟨"t2", ["b", "c"]⟩⟩,
           ⟨2, none, some ⟨"t3", []⟩⟩,
           ⟨3, some "", some ⟨"t4", ["d"]⟩⟩,
           ⟨4, some "End", some ⟨"t5", []⟩⟩] :=
  ⟨by decide,
   c9_reconstruct_flatten_roundtrip _ (by decide) (by decide) (by decide)⟩

/-- **C1**: for every submitted batch of `N` WorkItems with concurrency
limit `K` (`1 ≤ K ≤ N`), the orchestrator fires the on-result callback
exactly once per item (`N` callbacks in total — the completion trace is a
permutation of the batch), and when the Task Record reaches its terminal
status the counters satisfy `completed + failed = total`, with no item
double-counted or skipped.
(`services/task_manager.py` is not under `src/`; `runOrchestrator` is
modelled from the spec, §4.2–§4.3.) -/
theorem c1_callbacks_and_terminal_counters
    (items events : List ExecResult) (K : Nat) (policy : TaskStatus)
    (task : Task)
    (hK1 : 1 ≤ K) (hKN : K ≤ items.length)
    (hpolicy : policy = .FAILED ∨ policy = .COMPLETED_WITH_ERRORS)
    (hperm : events.Perm items)
    (hinit : task.progress = ⟨items.length, 0, 0⟩) :
    events.length = items.length ∧
    isTerminalStatus (runOrchestrator policy task events).status = true ∧
    (runOrchestrator policy task events).progress.completed
        + (runOrchestrator policy task events).progress.failed
      = (runOrchestrator policy task events).progress.total := by
  have hlen : events.length = items.length := hperm.length_eq
  have hfold := foldl_onResult_spec events task.progress
  have hcnt := count_success_add_count_failure events
  refine ⟨hlen, ?_, ?_⟩
  · simp only [runOrchestrator, terminalStatus]
    split
    · rfl
    · split
      · rfl
      · rcases hpolicy with h | h <;> rw [h] <;> rfl
  · rw [hinit] at hfold
    simp only [runOrchestrator, hinit, hfold]
    omega

/-- Concrete instance for `c1_callbacks_and_terminal_counters`: a batch
of two items, `K = 1`, completion order reversed, all-failed policy
`FAILED`. -/
theorem c1_callbacks_and_terminal_counters_witness :
    [ExecResult.failure, ExecResult.success].length
        = [ExecResult.success, ExecResult.failure].length ∧
    isTerminalStatus (runOrchestrator .FAILED
        ⟨1, 1, "GENERATE_DESCRIPTIONS", .PENDING, ⟨2, 0, 0⟩⟩
        [.failure, .success]).status = true ∧
    (runOrchestrator .FAILED
        ⟨1, 1, "GENERATE_DESCRIPTIONS", .PENDING, ⟨2, 0, 0⟩⟩
        [.failure, .success]).progress.completed
      + (runOrchestrator .FAILED
        ⟨1, 1, "GENERATE_DESCRIPTIONS", .PENDING, ⟨2, 0, 0⟩⟩
        [.failure, .success]).progress.failed
      = (runOrchestrator .FAILED
        ⟨1, 1, "GENERATE_DESCRIPTIONS", .PENDING, ⟨2, 0, 0⟩⟩
        [.failure, .success]).progress.total :=
  c1_callbacks_and_terminal_counters
    [.success, .failure] [.failure, .success] 1 .FAILED
    ⟨1, 1, "GENERATE_DESCRIPTIONS", .PENDING, ⟨2, 0, 0⟩⟩
    (by decide) (by decide) (.inl rfl) (by decide) rfl

/-- **C2** (counterexample to the claim as stated): the claim's `N == 0`
clause says a zero-item batch ends in a terminal `FAILED` Task Record
with a `PRECONDITION_FAILED` cause. On the code, a project with zero
pages is rejected with a 400 `bad_request` before any Task Record is
created: the effect trace is empty, so no `FAILED` record ever exists. -/
theorem c2_terminal_status_counterexample :
    generate_descriptions (some ⟨2, "DRAFT"⟩) [] none 5 7
      = (.badRequest "No pages found for project", []) := by
  decide

/-- **C2** (amended): for every batch run to exhaustion with `N > 0`
items, the terminal status is `COMPLETED` when no item failed,
`COMPLETED_WITH_ERRORS` when `0 < failed < N`, and the single fixed
policy choice (`FAILED` or `COMPLETED_WITH_ERRORS`) when all `N` items
failed; a zero-item batch never runs at all — both endpoints reject it
with a 400 `bad_request` and create no Task Record.
(The terminal rule lives in `services/task_manager.py`, not under
`src/`; `runOrchestrator`/`terminalStatus` are modelled from the spec,
§4.3/§8, with the all-failed policy an explicit fixed parameter, §9.) -/
theorem c2_terminal_status_rule (events : List ExecResult)
    (policy : TaskStatus) (task : Task) (proj : Project)
    (mw : Option Int) (cfgD cfgI : Int) (tid : Nat)
    (hpolicy : policy = .FAILED ∨ policy = .COMPLETED_WITH_ERRORS)
    (hinit : task.progress = ⟨events.length, 0, 0⟩)
    (hne : events ≠ []) :
    (events.count .failure = 0 →
      (runOrchestrator policy task events).status = .COMPLETED) ∧
    (0 < events.count .failure → events.count .failure < events.length →
      (runOrchestrator policy task events).status
        = .COMPLETED_WITH_ERRORS) ∧
    (events.count .failure = events.length →
      (runOrchestrator policy task events).status = policy) ∧
    (descStatusAllowed proj.status = true →
      generate_descriptions (some proj) [] mw cfgD tid
        = (.badRequest "No pages found for project", [])) ∧
    generate_images (some proj) [] mw cfgI tid
      = (.badRequest "No pages found for project", []) := by
  have hfold := foldl_onResult_spec events task.progress
  rw [hinit] at hfold
  have hlen : 0 < events.length := List.length_pos_of_ne_nil hne
  refine ⟨?_, ?_, ?_, ?_, ?_⟩
  · intro h0
    simp only [runOrchestrator, hinit, hfold, terminalStatus]
    simp [h0]
  · intro hpos hlt
    simp only [runOrchestrator, hinit, hfold, terminalStatus]
    rw [if_neg (by simp; omega), if_pos (by simp; omega)]
  · intro hall
    simp only [runOrchestrator, hinit, hfold, terminalStatus]
    rw [if_neg (by simp; omega), if_neg (by simp; omega)]
  · intro hstatus
    simp [generate_descriptions, hstatus]
  · simp [generate_images]

/-- Concrete instance for `c2_terminal_status_rule`: a three-event trace
with one failure, policy `FAILED`, and a `DRAFT` project for the
zero-page clauses. -/
theorem c2_terminal_status_rule_witness :
    (runOrchestrator .FAILED
        ⟨3, 2, "GENERATE_IMAGES", .PENDING, ⟨3, 0, 0⟩⟩
        [.success, .failure, .success]).status
      = .COMPLETED_WITH_ERRORS ∧
    generate_images (some ⟨2, "DRAFT"⟩) [] none 8 9
      = (.badRequest "No pages found for project", []) :=
  ⟨(c2_terminal_status_rule [.success, .failure, .success] .FAILED
      ⟨3, 2, "GENERATE_IMAGES", .PENDING, ⟨3, 0, 0⟩⟩ ⟨2, "DRAFT"⟩
      none 5 8 9 (.inl rfl) rfl (by decide)).2.1 (by decide) (by decide),
   (c2_terminal_status_rule [.success, .failure, .success] .FAILED
      ⟨3, 2, "GENERATE_IMAGES", .PENDING, ⟨3, 0, 0⟩⟩ ⟨2, "DRAFT"⟩
      none 5 8 9 (.inl rfl) rfl (by decide)).2.2.2.2⟩

/-- **C3** (counterexample to the claim as stated): the claim says a
zero-page submission produces an immediate terminal `FAILED` Task Record
with a `PRECONDITION_FAILED` cause. On the code
(`project_controller.py` lines 449–450 and 582–583), both endpoints
return a 400 `bad_request` and create nothing: no Task Record of any
status exists and the pool is never invoked. -/
theorem c3_zero_items_counterexample :
    generate_descriptions (some ⟨1, "OUTLINE_GENERATED"⟩) [] none 5 1
      = (.badRequest "No pages found for project", []) ∧
    generate_images (some ⟨1, "OUTLINE_GENERATED"⟩) [] none 8 1
      = (.badRequest "No pages found for project", []) := by
  decide

/-- **C3** (amended): a batch submission for a project with zero pages is
rejected immediately with a 400 `bad_request` (`"No pages found for
project"`); no Task Record is created and nothing is handed to the worker
pool — the effect trace is empty. -/
theorem c3_zero_items_rejected (proj : Project) (mw : Option Int)
    (cfgD cfgI : Int) (tid : Nat)
    (hstatus : descStatusAllowed proj.status = true) :
    generate_descriptions (some proj) [] mw cfgD tid
      = (.badRequest "No pages found for project", []) ∧
    generate_images (some proj) [] mw cfgI tid
      = (.badRequest "No pages found for project", []) := by
  constructor
  · simp [generate_descriptions, hstatus]
  · simp [generate_images]

/-- Concrete instance for `c3_zero_items_rejected`. -/
theorem c3_zero_items_rejected_witness :
    generate_descriptions (some ⟨4, "DESCRIPTIONS_GENERATED"⟩) [] (some 3) 5 11
      = (.badRequest "No pages found for project", []) ∧
    generate_images (some ⟨4, "DESCRIPTIONS_GENERATED"⟩) [] (some 3) 8 11
      = (.badRequest "No pages found for project", []) :=
  c3_zero_items_rejected ⟨4, "DESCRIPTIONS_GENERATED"⟩ (some 3) 5 8 11
    (by decide)

/-- **C4** (counterexample to the claim as stated): the claim says the
executor never lets a fault from the external generative call propagate
past its own boundary as an exception. `AIService.generate_image`
(`ai_service.py` lines 389–392) catches every fault and **re-raises** it:
when the provider call raises, the call site sees a raised `Exception`,
not a returned `Failure` value. -/
theorem c4_executor_counterexample :
    generate_image ⟨none, true, .error "ServerError: 500 from provider"⟩
      = .raised "Error generating image: ServerError: 500 from provider" := by
  decide

/-- **C4** (amended): for every environment, `AIService.generate_image`
produces exactly one outcome — either a returned image, or a single
classified raised `Exception` whose message wraps the original fault as
`"Error generating image: {type}: {msg}"` (its documented contract);
conversion of that exception into a per-item `Failure` is the caller's
job, outside this function's boundary. -/
theorem c4_executor_single_classified_outcome (env : ImgEnv) :
    (∃ img, generate_image env = .ok img) ∨
    (∃ m, generate_image env
      = .raised ("Error generating image: " ++ m)) := by
  unfold generate_image
  cases h : generate_image_body env with
  | ok img => exact .inl ⟨img, rfl⟩
  | error e => exact .inr ⟨e, rfl⟩

/-- **C5**: `submit_task` schedules the batch closure on a background
execution context distinct from the caller's and returns before the batch
completes: when the request handler returns the 202 response carrying the
new task id, the closure is still sitting unexecuted in the background
queue and the Task Record is still `PENDING` with no progress — even when
the batch has a single slow item.
(`task_manager.submit_task` is not under `src/`; the gateway's
fire-and-forget enqueue semantics are modelled from the spec, §4.4.) -/
theorem c5_submission_is_nonblocking (st : SysState) (proj : Project)
    (pages : List Page) (mw : Option Int) (cfg : Int) (tid : Nat)
    (hstatus : descStatusAllowed proj.status = true)
    (hpages : pages ≠ []) :
    (handleGenerateDescriptions st (some proj) pages mw cfg tid).2
      = .accepted tid "GENERATING_DESCRIPTIONS" pages.length ∧
    (tid, mw.getD cfg)
      ∈ (handleGenerateDescriptions st (some proj) pages mw cfg tid).1.queue ∧
    ∃ t ∈ (handleGenerateDescriptions st (some proj) pages mw cfg tid).1.tasks,
      t.id = tid ∧ t.status = .PENDING ∧ t.progress.completed = 0 ∧
      t.progress.failed = 0 := by
  have hempty : pages.isEmpty = false := by
    cases pages with
    | nil => exact absurd rfl hpages
    | cons a l => rfl
  refine ⟨?_, ?_, ?_⟩
  · simp [handleGenerateDescriptions, generate_descriptions, hstatus, hempty]
  · simp [handleGenerateDescriptions, generate_descriptions, hstatus, hempty,
      applyEffect]
  · refine ⟨⟨tid, proj.id, "GENERATE_DESCRIPTIONS", .PENDING,
      ⟨pages.length, 0, 0⟩⟩, ?_, rfl, rfl, rfl, rfl⟩
    simp [handleGenerateDescriptions, generate_descriptions, hstatus, hempty,
      applyEffect]

/-- Concrete instance for `c5_submission_is_nonblocking`: an empty
system, one page, `max_workers = 1` (the claim's `K = N = 1` case). -/
theorem c5_submission_is_nonblocking_witness :
    (handleGenerateDescriptions ⟨[], []⟩ (some ⟨1, "OUTLINE_GENERATED"⟩)
        [⟨0, none, some ⟨"t", []⟩⟩] (some 1) 5 1).2
      = .accepted 1 "GENERATING_DESCRIPTIONS" 1 ∧
    ((1 : Nat), (1 : Int))
      ∈ (handleGenerateDescriptions ⟨[], []⟩ (some ⟨1, "OUTLINE_GENERATED"⟩)
        [⟨0, none, some ⟨"t", []⟩⟩] (some 1) 5 1).1.queue ∧
    ∃ t ∈ (handleGenerateDescriptions ⟨[], []⟩ (some ⟨1, "OUTLINE_GENERATED"⟩)
        [⟨0, none, some ⟨"t", []⟩⟩] (some 1) 5 1).1.tasks,
      t.id = 1 ∧ t.status = .PENDING ∧ t.progress.completed = 0 ∧
      t.progress.failed = 0 :=
  c5_submission_is_nonblocking ⟨[], []⟩ ⟨1, "OUTLINE_GENERATED"⟩
    [⟨0, none, some ⟨"t", []⟩⟩] (some 1) 5 1 (by decide) (by decide)

/-- **C6**: every batch submission for a project with at least one page
creates exactly one new Task Record — status `PENDING`, progress
`{total: |pages|, completed: 0, failed: 0}`, a state with
`completed + failed ≤ total` — and does so before the closure reaches the
Submission Gateway: the effect trace is exactly one `taskCreated`
followed by the `submitted` hand-off, for both endpoints. -/
theorem c6_pending_task_created_before_submit (proj : Project)
    (pages : List Page) (mw : Option Int) (cfgD cfgI : Int) (tid : Nat)
    (hstatus : descStatusAllowed proj.status = true)
    (hpages : pages ≠ []) :
    (∃ t mwv,
      (generate_descriptions (some proj) pages mw cfgD tid).2
        = [.taskCreated t, .submitted tid mwv,
           .projectStatusSet "GENERATING_DESCRIPTIONS"] ∧
      t.status = .PENDING ∧ t.progress = ⟨pages.length, 0, 0⟩ ∧
      t.progress.completed + t.progress.failed ≤ t.progress.total) ∧
    (∃ t mwv,
      (generate_images (some proj) pages mw cfgI tid).2
        = [.taskCreated t, .submitted tid mwv,
           .projectStatusSet "GENERATING_IMAGES"] ∧
      t.status = .PENDING ∧ t.progress = ⟨pages.length, 0, 0⟩ ∧
      t.progress.completed + t.progress.failed ≤ t.progress.total) := by
  have hempty : pages.isEmpty = false := by
    cases pages with
    | nil => exact absurd rfl hpages
    | cons a l => rfl
  constructor
  · refine ⟨⟨tid, proj.id, "GENERATE_DESCRIPTIONS", .PENDING,
      ⟨pages.length, 0, 0⟩⟩, mw.getD cfgD, ?_, rfl, rfl, by simp⟩
    simp [generate_descriptions, hstatus, hempty]
  · refine ⟨⟨tid, proj.id, "GENERATE_IMAGES", .PENDING,
      ⟨pages.length, 0, 0⟩⟩, mw.getD cfgI, ?_, rfl, rfl, by simp⟩
    simp [generate_images, hempty]

/-- Concrete instance for `c6_pending_task_created_before_submit`. -/
theorem c6_pending_task_created_before_submit_witness :
    (∃ t mwv,
      (generate_descriptions (some ⟨1, "DRAFT"⟩)
          [⟨0, none, some ⟨"t", []⟩⟩, ⟨1, none, some ⟨"u", ["p"]⟩⟩]
          none 5 2).2
        = [.taskCreated t, .submitted 2 mwv,
           .projectStatusSet "GENERATING_DESCRIPTIONS"] ∧
      t.status = .PENDING ∧ t.progress = ⟨2, 0, 0⟩ ∧
      t.progress.completed + t.progress.failed ≤ t.progress.total) ∧
    (∃ t mwv,
      (generate_images (some ⟨1, "DRAFT"⟩)
          [⟨0, none, some ⟨"t", []⟩⟩, ⟨1, none, some ⟨"u", ["p"]⟩⟩]
          none 8 2).2
        = [.taskCreated t, .submitted 2 mwv,
           .projectStatusSet "GENERATING_IMAGES"] ∧
      t.status = .PENDING ∧ t.progress = ⟨2, 0, 0⟩ ∧
      t.progress.completed + t.progress.failed ≤ t.progress.total) :=
  c6_pending_task_created_before_submit ⟨1, "DRAFT"⟩
    [⟨0, none, some ⟨"t", []⟩⟩, ⟨1, none, some ⟨"u", ["p"]⟩⟩]
    none 5 8 2 (by decide) (by decide)

/-- **C7** (counterexample to the claim as stated): the claim says a
requested concurrency limit `K ≤ 0` is rejected as a configuration error
before the batch starts. The controllers perform no validation of
`max_workers` (`project_controller.py` lines 499–502, 632–635): a request
with `max_workers = 0` is accepted with a 202 and `0` is handed straight
to the worker-pool submission. -/
theorem c7_no_k_validation_counterexample :
    (generate_descriptions (some ⟨1, "OUTLINE_GENERATED"⟩)
        [⟨0, none, some ⟨"t", []⟩⟩] (some 0) 5 42).1
      = .accepted 42 "GENERATING_DESCRIPTIONS" 1 ∧
    Effect.submitted 42 0
      ∈ (generate_descriptions (some ⟨1, "OUTLINE_GENERATED"⟩)
        [⟨0, none, some ⟨"t", []⟩⟩] (some 0) 5 42).2 := by
  decide

/-- **C7** (amended): the controllers forward the requested
`max_workers` value verbatim to the worker-pool submission — the
request's value when present, the configured default otherwise — with no
positivity check: every integer `K`, including `K ≤ 0`, reaches the
pool. -/
theorem c7_max_workers_forwarded_unvalidated (proj : Project)
    (pages : List Page) (cfgD cfgI : Int) (tid : Nat) (k : Int)
    (hstatus : descStatusAllowed proj.status = true)
    (hpages : pages ≠ []) :
    Effect.submitted tid k
      ∈ (generate_descriptions (some proj) pages (some k) cfgD tid).2 ∧
    Effect.submitted tid k
      ∈ (generate_images (some proj) pages (some k) cfgI tid).2 := by
  have hempty : pages.isEmpty = false := by
    cases pages with
    | nil => exact absurd rfl hpages
    | cons a l => rfl
  constructor
  · simp [generate_descriptions, hstatus, hempty]
  · simp [generate_images, hempty]

/-- Concrete instance for `c7_max_workers_forwarded_unvalidated`, with
the nonpositive limit `K = -3`. -/
theorem c7_max_workers_forwarded_unvalidated_witness :
    Effect.submitted 6 (-3)
      ∈ (generate_descriptions (some ⟨1, "DRAFT"⟩)
          [⟨0, none, some ⟨"t", []⟩⟩] (some (-3)) 5 6).2 ∧
    Effect.submitted 6 (-3)
      ∈ (generate_images (some ⟨1, "DRAFT"⟩)
          [⟨0, none, some ⟨"t", []⟩⟩] (some (-3)) 8 6).2 :=
  c7_max_workers_forwarded_unvalidated ⟨1, "DRAFT"⟩
    [⟨0, none, some ⟨"t", []⟩⟩] 5 8 6 (-3) (by decide) (by decide)

/-- **C8**: polling `GET /api/projects/{project_id}/tasks/{task_id}`
returns the stored Task Record's status and progress verbatim when a task
with that id exists and belongs to that project, returns a not-found
error otherwise (missing id, or a task owned by another project), and
never modifies the store. -/
theorem c8_poll_returns_stored_record (tasks : List Task)
    (pid tid : Nat) :
    (get_task_status tasks pid tid).2 = tasks ∧
    (∀ t, tasks.find? (fun x => x.id == tid) = some t →
      t.projectId = pid →
      (get_task_status tasks pid tid).1 = .taskInfo t.status t.progress) ∧
    (∀ t, tasks.find? (fun x => x.id == tid) = some t →
      t.projectId ≠ pid →
      (get_task_status tasks pid tid).1 = .notFound "Task") ∧
    (tasks.find? (fun x => x.id == tid) = none →
      (get_task_status tasks pid tid).1 = .notFound "Task") := by
  refine ⟨?_, ?_, ?_, ?_⟩
  · unfold get_task_status
    cases h : tasks.find? (fun x => x.id == tid) with
    | none => rfl
    | some t =>
      by_cases hp : t.projectId = pid
      · simp [hp]
      · simp [hp]
  · intro t ht hp
    unfold get_task_status
    rw [ht]
    simp [hp]
  · intro t ht hp
    unfold get_task_status
    rw [ht]
    simp [hp]
  · intro h
    unfold get_task_status
    rw [h]

/-- Concrete instance for `c8_poll_returns_stored_record`: a running task
found and returned verbatim, with the store untouched. -/
theorem c8_poll_returns_stored_record_witness :
    (get_task_status [⟨3, 7, "GENERATE_IMAGES", .RUNNING, ⟨5, 2, 1⟩⟩] 7 3).1
      = .taskInfo .RUNNING ⟨5, 2, 1⟩ ∧
    (get_task_status [⟨3, 7, "GENERATE_IMAGES", .RUNNING, ⟨5, 2, 1⟩⟩] 7 3).2
      = [⟨3, 7, "GENERATE_IMAGES", .RUNNING, ⟨5, 2, 1⟩⟩] :=
  ⟨(c8_poll_returns_stored_record
      [⟨3, 7, "GENERATE_IMAGES", .RUNNING, ⟨5, 2, 1⟩⟩] 7 3).2.1
      ⟨3, 7, "GENERATE_IMAGES", .RUNNING, ⟨5, 2, 1⟩⟩ (by decide) rfl,
   (c8_poll_returns_stored_record
      [⟨3, 7, "GENERATE_IMAGES", .RUNNING, ⟨5, 2, 1⟩⟩] 7 3).1⟩

/-- **C10** (counterexample to the claim as stated): the claim says
`serve_mineru_file` only ever serves files whose resolved path lies under
`UPLOAD_FOLDER/mineru_files/{extract_id}`. The guard
(`file_controller.py` line 130) is a *string* `startswith` on the two
absolute paths, so a sibling directory whose name extends the extract id
as a string slips through: with `extract_id = "abc"` and
`filepath = "../abc-evil/secret.png"` the resolved path
`/app/uploads/mineru_files/abc-evil/secret.png` passes the check and is
served, yet it is not under the root directory
`/app/uploads/mineru_files/abc`. -/
theorem c10_sibling_escape_counterexample :
    serve_mineru_file ["app", "uploads"] "abc" "../abc-evil/secret.png" true
      = .file "/app/uploads/mineru_files/abc-evil/secret.png" ∧
    underRootDir ["app", "uploads"] "abc"
      (normalizePath (mineruRoot ["app", "uploads"] "abc"
        ++ splitPath "../abc-evil/secret.png"))
      = false := by
  constructor
  · rfl
  · rfl

/-- **C10** (amended): the guard in `serve_mineru_file` is a string-level
prefix test — a request is rejected with a 403 `INVALID_PATH` exactly
when the resolved absolute path of `root/filepath` does not *string*-start
with the resolved absolute root path, and every served file's path passes
that string test (which also admits sibling directories whose names
extend `{extract_id}` as a string). -/
theorem c10_string_prefix_gate (uploadFolder : List String)
    (extractId filepath : String) (fileFound : Bool) :
    (strStartsWith (joinAbs (normalizePath
        (mineruRoot uploadFolder extractId ++ splitPath filepath)))
      (joinAbs (normalizePath (mineruRoot uploadFolder extractId))) = false →
      serve_mineru_file uploadFolder extractId filepath fileFound
        = .invalidPath) ∧
    (∀ p, serve_mineru_file uploadFolder extractId filepath fileFound
      = .file p →
      strStartsWith p (joinAbs (normalizePath (mineruRoot uploadFolder extractId)))
        = true) := by
  constructor
  · intro h
    simp [serve_mineru_file, h]
  · intro p hp
    by_cases hs : strStartsWith (joinAbs (normalizePath
        (mineruRoot uploadFolder extractId ++ splitPath filepath)))
        (joinAbs (normalizePath (mineruRoot uploadFolder extractId))) = true
    · cases fileFound with
      | true =>
        simp [serve_mineru_file, hs] at hp
        subst hp
        exact hs
      | false => simp [serve_mineru_file, hs] at hp
    · have hs' : strStartsWith (joinAbs (normalizePath
          (mineruRoot uploadFolder extractId ++ splitPath filepath)))
          (joinAbs (normalizePath (mineruRoot uploadFolder extractId))) = false := by
        simpa using hs
      simp [serve_mineru_file, hs'] at hp

/-- Concrete instance for `c10_string_prefix_gate`: a blatant `../..`
traversal is rejected with 403, and a normal in-root request's served
path passes the prefix test. -/
theorem c10_string_prefix_gate_witness :
    serve_mineru_file ["app", "uploads"] "abc" "../../etc/passwd" true
      = .invalidPath ∧
    strStartsWith "/app/uploads/mineru_files/abc/images/x.png"
      (joinAbs (normalizePath (mineruRoot ["app", "uploads"] "abc"))) = true :=
  ⟨(c10_string_prefix_gate ["app", "uploads"] "abc" "../../etc/passwd"
      true).1 (by decide),
   (c10_string_prefix_gate ["app", "uploads"] "abc" "images/x.png" true).2
      "/app/uploads/mineru_files/abc/images/x.png" (by decide)⟩

end BananaSlides
